import Mathlib

/-!
Verification of `zaidan-common`'s `DealerCache` (src/zaidan/DealerCache.py).

The cache is a thin layer over a Redis database.  We embed it shallowly:

* Python structured values (the payloads handled by the serializer) become
  the inductive `Value`; Python `int` and `float` both map onto the exact
  numeric constructor `Value.num : ℚ → Value`.
* The Redis instance becomes `Store`: three finite association lists, one per
  key space the cache touches (plain string keys, the ORDER_MARKS hash table
  and the UNHEDGED_POSITION hash table).
* Methods become functions from a `Store` (plus the current time, replacing
  `time()`) to an `Except PyErr` result; methods that can write also return
  the resulting `Store`, and methods whose claims talk about store traffic
  additionally return the list of store `Action`s they performed, in order.
* Python exceptions become the constructors of `PyErr`.

The helper module `zaidan/utils.py` (`is_valid_uuid`, `encode_to_bytes`,
`decode_from_bytes`) is not part of the given sources; those three functions
are modelled from the spec and marked as such in their doc comments.
-/

set_option autoImplicit false
set_option linter.unusedVariables false

namespace Zaidan

/-- A Python structured value, as handled by the serializer: nested
maps/lists/numbers/strings.  Python `int` and `float` collapse into the one
exact constructor `num`. -/
inductive Value where
  | num (q : ℚ)
  | str (s : String)
  | list (xs : List Value)
  | dict (fields : List (String × Value))

/-- Python exceptions raised by the cache or by the runtime. -/
inductive PyErr where
  /-- `NotFoundError` — a requested item does not exist. -/
  | notFound (msg : String)
  /-- `OutOfDateError` — a record is out-of-date; carries the overage in
  seconds (`book_age - max_age`), which the source interpolates into the
  message. -/
  | outOfDate (overage : ℚ)
  /-- `DealerCacheError` — the generic cache error. -/
  | dealerCacheError (msg : String)
  /-- Python `ValueError`. -/
  | valueError (msg : String)
  /-- Python `TypeError`. -/
  | typeError (msg : String)
  /-- Python `AttributeError`. -/
  | attributeError (msg : String)
  /-- Python `KeyError`. -/
  | keyError (key : String)
  /-- Python `NameError`. -/
  | nameError (name : String)
deriving DecidableEq

/-- One atomic request to the Redis store. -/
inductive Action where
  | hexists (key field : String)
  | hget (key field : String)
  | hset (key field : String)
  | get (key : String)
deriving DecidableEq

/-- Modelled from the spec: the serializer (`encode_to_bytes` in
`zaidan/utils.py`, absent from the given sources) encodes a structured record
into an opaque byte sequence, losslessly.  We keep the encoded value inside
the opaque wrapper; an encoded record is never the empty (falsy) byte
string. -/
structure Bytes where
  data : Value

/-- Modelled from the spec: lossless encoding of a structured record into an
opaque byte sequence (`zaidan/utils.py`, absent from the given sources). -/
def encode_to_bytes (v : Value) : Bytes := ⟨v⟩

/-- Modelled from the spec: lossless decoding, the inverse of
`encode_to_bytes` (`zaidan/utils.py`, absent from the given sources). -/
def decode_from_bytes (b : Bytes) : Value := b.data

/- Association-list primitives, shared by the store's hash tables and by
Python dictionaries (`Value.dict`).  `setKeyA` has Python-dict update
semantics: replace in place when the key exists, append otherwise. -/

/-- Look a key up in an association list. -/
def lookupA {α : Type} : List (String × α) → String → Option α
  | [], _ => none
  | (k, v) :: rest, key => if k = key then some v else lookupA rest key

/-- Key membership in an association list. -/
def hasKeyA {α : Type} : List (String × α) → String → Bool
  | [], _ => false
  | (k, _) :: rest, key => k = key || hasKeyA rest key

/-- Set a key in an association list: replace in place, or append. -/
def setKeyA {α : Type} : List (String × α) → String → α → List (String × α)
  | [], key, v => [(key, v)]
  | (k, w) :: rest, key, v =>
      if k = key then (key, v) :: rest else (k, w) :: setKeyA rest key v

/-- Remove a key from an association list. -/
def delKeyA {α : Type} : List (String × α) → String → List (String × α)
  | [], _ => []
  | (k, w) :: rest, key => if k = key then rest else (k, w) :: delKeyA rest key

/- Python string primitives used by the source: `str.upper`, `str.lower`,
and `str.split` with a one-character separator.  They are written over the
character list of the string so that they evaluate by kernel reduction. -/

/-- ASCII uppercase of one character (Python `str.upper`, ASCII fragment). -/
def upperChar (c : Char) : Char :=
  if 'a' ≤ c ∧ c ≤ 'z' then Char.ofNat (c.toNat - 32) else c

/-- ASCII lowercase of one character (Python `str.lower`, ASCII fragment). -/
def lowerChar (c : Char) : Char :=
  if 'A' ≤ c ∧ c ≤ 'Z' then Char.ofNat (c.toNat + 32) else c

/-- Python `str.upper` (ASCII fragment). -/
def pyUpper (s : String) : String := ⟨s.data.map upperChar⟩

/-- Python `str.lower` (ASCII fragment). -/
def pyLower (s : String) : String := ⟨s.data.map lowerChar⟩

/-- Helper for `pySplit`: split a character list at every separator. -/
def splitAux (sep : Char) : List Char → List Char → List (List Char)
  | [], acc => [acc.reverse]
  | c :: rest, acc =>
      if c = sep then acc.reverse :: splitAux sep rest []
      else splitAux sep rest (c :: acc)

/-- Python `str.split` with a one-character separator: `"BTC/".split('/')`
is `["BTC", ""]`, `"BTCUSD".split('/')` is `["BTCUSD"]`. -/
def pySplit (sep : Char) (s : String) : List String :=
  (splitAux sep s.data []).map String.mk

/-- Hexadecimal digit test. -/
def isHexDigit (c : Char) : Bool :=
  c.isDigit || ('a' ≤ c ∧ c ≤ 'f') || ('A' ≤ c ∧ c ≤ 'F')

/-- One dash-separated UUID group: the expected length, all hex digits. -/
def uuidGroup (n : Nat) (s : String) : Bool :=
  s.length = n && s.data.all isHexDigit

/-- Modelled from the spec: `is_valid_uuid` of `zaidan/utils.py` (absent from
the given sources) checks that a string is a syntactically well-formed UUID.
Modelled as the canonical 8-4-4-4-12 dashed hexadecimal format. -/
def is_valid_uuid (s : String) : Bool :=
  match pySplit '-' s with
  | [a, b, c, d, e] =>
      uuidGroup 8 a && uuidGroup 4 b && uuidGroup 4 c && uuidGroup 4 d &&
        uuidGroup 12 e
  | _ => false

/-- A value held under a plain Redis string key.  The order-book key spaces
hold either a stringified number (the snapshot timestamps; the round trip
through `str`/`float` is modelled as the identity on exact numbers) or an
encoded payload (the book snapshots). -/
inductive RVal where
  | num (q : ℚ)
  | enc (b : Bytes)

/-- The Redis database, restricted to the key spaces the cache touches:
plain string keys (order-book snapshots and their timestamps), the
ORDER_MARKS hash table, and the UNHEDGED_POSITION hash table.  Hash tables
are finite field → value association lists.  The UNHEDGED_POSITION values
are stringified floats in Redis; the `str`/`float` round trip is modelled as
the identity on exact numbers, so the fields map directly to `ℚ`. -/
structure Store where
  strings : List (String × RVal)
  orderMarks : List (String × Bytes)
  unhedged : List (String × ℚ)

/-- The store with no keys at all. -/
def emptyStore : Store := ⟨[], [], []⟩

/-- Redis key for the quotes (order mark) hash table
(`DealerCache.order_marks_key`). -/
def order_marks_key : String := "ORDER_MARKS"

/-- Redis key for the per-symbol un-hedged positions hash table
(`DealerCache.unhedged_position_key`). -/
def unhedged_position_key : String := "UNHEDGED_POSITION"

/-- Python subscript `v[k]` on a decoded record: a key lookup on a
dictionary (`KeyError` when the key is absent), a `TypeError` on any
non-dictionary value. -/
def pySubscript (v : Value) (k : String) : Except PyErr Value :=
  match v with
  | .dict fs =>
      match lookupA fs k with
      | some x => .ok x
      | none => .error (.keyError k)
  | _ => .error (.typeError "object is not subscriptable")

/-- Character-list membership helper: does the second list start with the
first? -/
def startsList : List Char → List Char → Bool
  | [], _ => true
  | _ :: _, [] => false
  | a :: as, b :: bs => a = b && startsList as bs

/-- Character-list membership helper: does the first list occur inside the
second? -/
def subList (p : List Char) : List Char → Bool
  | [] => startsList p []
  | c :: rest => startsList p (c :: rest) || subList p rest

/-- Python equality of a string against an arbitrary value: a string value
compares by contents, every other value is unequal. -/
def eqStrV (k : String) : Value → Bool
  | .str s => k = s
  | _ => false

/-- Python membership of a string in a list of values. -/
def anyEqStr (k : String) : List Value → Bool
  | [] => false
  | v :: rest => eqStrV k v || anyEqStr k rest

/-- Python `k in v` on a decoded record: key membership on a dictionary,
element membership on a list, substring test on a string, `TypeError`
otherwise. -/
def pyIn (k : String) (v : Value) : Except PyErr Bool :=
  match v with
  | .dict fs => .ok (hasKeyA fs k)
  | .list xs => .ok (anyEqStr k xs)
  | .str s => .ok (subList k.data s.data)
  | .num _ => .error (.typeError "argument is not iterable")

/-- Python item assignment `v[k] = x` on a decoded record: dictionary update
(replace or add), `TypeError` on any non-dictionary value (`order_mark` is
only ever indexed by the string `'status'` in the source). -/
def setItem (v : Value) (k : String) (x : Value) : Except PyErr Value :=
  match v with
  | .dict fs => .ok (.dict (setKeyA fs k x))
  | _ => .error (.typeError "object does not support item assignment")

/-- Python `float(x)` applied to the result of a Redis `GET`: `TypeError`
on `None` (absent key), the number itself on a stringified number, and
`TypeError` on bytes that do not parse as a number. -/
def pyFloatOpt (v : Option RVal) : Except PyErr ℚ :=
  match v with
  | none => .error (.typeError "float argument must not be None")
  | some (.num q) => .ok q
  | some (.enc _) => .error (.typeError "could not convert to float")

/-- `DealerCache.set_unhedged_position` (source lines 45–54).  The source
first evaluates `str(size)` (always succeeds), then reads the attribute
`self.unhedged_positions_key` — which does not exist: the class only defines
`unhedged_position_key`.  The attribute lookup raises `AttributeError`, so
`hset` is never reached and the store is unchanged. -/
def set_unhedged_position (st : Store) (symbol : String) (size : ℚ) :
    Except PyErr Unit × Store :=
  let size_val := size
  (.error (.attributeError
      "DealerCache object has no attribute unhedged_positions_key"), st)

/-- `DealerCache.get_unhedged_position` (source lines 56–68).  Checks
existence under the upper-cased symbol, returning `0.0` when absent; when
present, fetches the field under the symbol **as passed** (the source omits
`.upper()` in the `hget` call) and applies `float` to the result, which is a
`TypeError` when that differently-cased field is absent. -/
def get_unhedged_position (st : Store) (symbol : String) : Except PyErr ℚ :=
  if !hasKeyA st.unhedged (pyUpper symbol) then .ok 0
  else pyFloatOpt ((lookupA st.unhedged symbol).map RVal.num)

/-- The composite order-book key `{SYMBOL}_{exchange}_{side}` (symbol
upper-cased, exchange and side lower-cased), from `get_order_book`. -/
def book_base_key (exchange symbol side : String) : String :=
  pyUpper symbol ++ "_" ++ pyLower exchange ++ "_" ++ pyLower side

/-- The sibling timestamp key `{SYMBOL}_{exchange}_{side}_timestamp`. -/
def book_timestamp_key (exchange symbol side : String) : String :=
  book_base_key exchange symbol side ++ "_timestamp"

/-- `DealerCache.get_order_book` (source lines 70–99), with `time()`
replaced by the `now` parameter.  Validates that `symbol` splits on `'/'`
into exactly two pieces, builds the composite key and its `_timestamp`
sibling, fetches the timestamp (a `TypeError` surfaces from `float(None)`
when the key is absent), raises `OutOfDateError` when `max_age > 0` and the
age reaches it, then fetches and decodes the book.  Returns the result
paired with the store requests made, in order. -/
def get_order_book (st : Store) (now : ℚ) (exchange symbol side : String)
    (max_age : ℚ) : Except PyErr Value × List Action :=
  let call_time := now
  let symbols := pySplit '/' symbol
  if symbols.length ≠ 2 then
    (.error (.valueError "symbol must be BASE_TICKER/QUOTE_TICKER format"), [])
  else
    let base_key := book_base_key exchange symbol side
    let timestamp_key := base_key ++ "_timestamp"
    match pyFloatOpt (lookupA st.strings timestamp_key) with
    | .error e => (.error e, [.get timestamp_key])
    | .ok ts =>
        let book_age := call_time - ts
        if max_age > 0 ∧ book_age ≥ max_age then
          (.error (.outOfDate (book_age - max_age)),
            [.get timestamp_key])
        else
          match lookupA st.strings base_key with
          | some (.enc raw_book) =>
              (.ok (decode_from_bytes raw_book),
                [.get timestamp_key, .get base_key])
          | some (.num _) =>
              (.error (.typeError "cannot decode a non-bytes value"),
                [.get timestamp_key, .get base_key])
          | none =>
              (.error (.typeError "cannot decode None"),
                [.get timestamp_key, .get base_key])

/-- `DealerCache.set_quote` (source lines 101–120).  The source builds the
wrapped record `data = {'status': status, 'quote': order_mark}` and then
never uses it: the `hset` stores `encode_to_bytes(order_mark)`, the bare
payload.  The dead binding is kept to mirror the source.  In the source
`status` defaults to `0`; the default is applied at call sites here. -/
def set_quote (st : Store) (quote_id : String) (order_mark : Value)
    (status : ℚ) : Store :=
  let data := Value.dict [("status", .num status), ("quote", order_mark)]
  let mark_compressed := encode_to_bytes order_mark
  { st with orderMarks := setKeyA st.orderMarks quote_id mark_compressed }

/-- `DealerCache.update_quote_status` (source lines 122–141).  `hexists`
first (`NotFoundError` when the field is absent), then `hget` + decode,
a `DealerCacheError` when the decoded record has no `'status'` field, then
the status is replaced, the record re-encoded and written back.  Returns
the result, the resulting store (unchanged on every error path), and the
store requests made, in order. -/
def update_quote_status (st : Store) (quote_id : String) (new_status : ℚ) :
    Except PyErr Unit × Store × List Action :=
  match lookupA st.orderMarks quote_id with
  | none =>
      (.error (.notFound "quote with specified ID not found"), st,
        [.hexists order_marks_key quote_id])
  | some order_mark_raw =>
      let order_mark := decode_from_bytes order_mark_raw
      match pyIn "status" order_mark with
      | .error e =>
          (.error e, st,
            [.hexists order_marks_key quote_id, .hget order_marks_key quote_id])
      | .ok false =>
          (.error (.dealerCacheError "malformed order mark; no known status"),
            st,
            [.hexists order_marks_key quote_id, .hget order_marks_key quote_id])
      | .ok true =>
          match setItem order_mark "status" (.num new_status) with
          | .error e =>
              (.error e, st,
                [.hexists order_marks_key quote_id,
                  .hget order_marks_key quote_id])
          | .ok new_mark =>
              let new_mark_raw := encode_to_bytes new_mark
              (.ok (), { st with
                  orderMarks := setKeyA st.orderMarks quote_id new_mark_raw },
                [.hexists order_marks_key quote_id,
                  .hget order_marks_key quote_id,
                  .hset order_marks_key quote_id])

/-- `DealerCache.get_quote` (source lines 143–161).  Rejects a quote id that
is not a well-formed UUID with a `DealerCacheError` before touching the
store; raises `NotFoundError` when the field is absent (`hget` returns
`None`, which is falsy); otherwise decodes and returns the record's
`'quote'` item.  Returns the result paired with the store requests made. -/
def get_quote (st : Store) (quote_id : String) :
    Except PyErr Value × List Action :=
  if !is_valid_uuid quote_id then
    (.error (.dealerCacheError "invalid quote ID"), [])
  else
    match lookupA st.orderMarks quote_id with
    | none =>
        (.error (.notFound "quote not found"), [.hget order_marks_key quote_id])
    | some raw_order_mark =>
        let order_mark := decode_from_bytes raw_order_mark
        (pySubscript order_mark "quote", [.hget order_marks_key quote_id])

/-- The loop body of `DealerCache.get_all_order_marks` (source lines
170–182), folded over the `hgetall` result.  The source initialises
`marks = {}` but stores into — and returns — the never-defined name
`quotes`: with a non-empty table and `only_valid` set, the first iteration
evaluates `int(time)` on the imported `time` *function* and raises
`TypeError`; with `only_valid` unset, the first iteration's
`quotes[mark_id] = decoded_mark` raises `NameError`; with an empty table the
final `return quotes` raises `NameError`.  The dead accumulator `marks`
mirrors the source's. -/
def order_marks_loop (only_valid : Bool) (raw_marks : List (String × Bytes))
    (marks : List (String × Value)) : Except PyErr (List (String × Value)) :=
  match raw_marks with
  | [] => .error (.nameError "quotes")
  | (mark_id, raw) :: _ =>
      let decoded_mark := decode_from_bytes raw
      if only_valid then
        .error (.typeError
          "int argument must be a string or a number, not builtin function")
      else .error (.nameError "quotes")

/-- `DealerCache.get_all_order_marks` (source lines 163–182): iterate the
loop body over every field of the ORDER_MARKS hash table. -/
def get_all_order_marks (st : Store) (only_valid : Bool) :
    Except PyErr (List (String × Value)) :=
  order_marks_loop only_valid st.orderMarks []

/-- `DealerCache.remove_order_mark` (source lines 184–191): unconditional
`hdel` of the field; deleting an absent field is not an error. -/
def remove_order_mark (st : Store) (quote_id : String) : Store :=
  { st with orderMarks := delKeyA st.orderMarks quote_id }

/-- `DealerCache.get_quote_ids` (source lines 193–198): the field keys of
the ORDER_MARKS hash table. -/
def get_quote_ids (st : Store) : List String :=
  st.orderMarks.map Prod.fst

/-- Discriminator: is the result a success? -/
def exceptIsOk {α : Type} : Except PyErr α → Bool
  | .ok _ => true
  | .error _ => false

/-- Discriminator: is the result an `OutOfDateError` (stale data)? -/
def isOutOfDateE {α : Type} : Except PyErr α → Bool
  | .error (.outOfDate _) => true
  | _ => false

/-- Discriminator: is the result a `NotFoundError`? -/
def isNotFoundE {α : Type} : Except PyErr α → Bool
  | .error (.notFound _) => true
  | _ => false

/-- Discriminator: is the result a `ValueError` (invalid input)? -/
def isValueErrorE {α : Type} : Except PyErr α → Bool
  | .error (.valueError _) => true
  | _ => false

/-!  Two concurrent `update_quote_status` calls, modelled at the granularity
of atomic store round trips.  One call makes three requests — `hexists`,
`hget`, `hset` — and all computation between them (decode, the `'status'`
membership check, the mutation, re-encode) is local to the caller, so it is
bundled with the adjacent request.  A schedule (a list of Booleans, one per
step, `true` for caller A) chooses the interleaving; a scheduled caller that
has already finished leaves everything unchanged. -/

/-- The contents of the ORDER_MARKS hash table alone. -/
abbrev MarkTable := List (String × Bytes)

/-- The local state of one in-flight `update_quote_status` call. -/
inductive CallerState where
  /-- Before the `hexists` request. -/
  | start
  /-- `hexists` answered `true`. -/
  | checked
  /-- `hget` done; holds the decoded record. -/
  | readMark (order_mark : Value)
  /-- `hset` done: the call returned successfully. -/
  | done
  /-- The call raised. -/
  | failed (e : PyErr)

/-- One atomic store round trip of an in-flight `update_quote_status` call
for `quote_id` with target status `new_status`, following source lines
130–141: the existence check, then read-and-decode, then the status check,
mutation, re-encode and write-back. -/
def stepCaller (quote_id : String) (new_status : ℚ) :
    CallerState → MarkTable → CallerState × MarkTable
  | .start, tbl =>
      if hasKeyA tbl quote_id then (.checked, tbl)
      else (.failed (.notFound "quote with specified ID not found"), tbl)
  | .checked, tbl =>
      match lookupA tbl quote_id with
      | none => (.failed (.typeError "cannot decode None"), tbl)
      | some raw => (.readMark (decode_from_bytes raw), tbl)
  | .readMark order_mark, tbl =>
      match pyIn "status" order_mark with
      | .error e => (.failed e, tbl)
      | .ok false =>
          (.failed (.dealerCacheError "malformed order mark; no known status"),
            tbl)
      | .ok true =>
          match setItem order_mark "status" (.num new_status) with
          | .error e => (.failed e, tbl)
          | .ok new_mark =>
              (.done, setKeyA tbl quote_id (encode_to_bytes new_mark))
  | .done, tbl => (.done, tbl)
  | .failed e, tbl => (.failed e, tbl)

/-- The shared table together with the two callers' local states. -/
structure TwoConfig where
  tbl : MarkTable
  a : CallerState
  b : CallerState

/-- One scheduled step: `true` steps caller A (target status `sA`),
`false` steps caller B (target status `sB`). -/
def stepTwo (quote_id : String) (sA sB : ℚ) (c : TwoConfig) :
    Bool → TwoConfig
  | true =>
      let r := stepCaller quote_id sA c.a c.tbl
      ⟨r.2, r.1, c.b⟩
  | false =>
      let r := stepCaller quote_id sB c.b c.tbl
      ⟨r.2, c.a, r.1⟩

/-- Run a whole schedule. -/
def runTwo (quote_id : String) (sA sB : ℚ) :
    TwoConfig → List Bool → TwoConfig
  | c, [] => c
  | c, s :: rest => runTwo quote_id sA sB (stepTwo quote_id sA sB c s) rest

/-- The record `fs` with its `'status'` field set to `s`. -/
def statusSet (fs : List (String × Value)) (s : ℚ) : Value :=
  .dict (setKeyA fs "status" (.num s))

/-- The marks reachable in the table while two updates with target statuses
`sA` and `sB` are in flight over an initial record `fs`. -/
def goodMark (fs : List (String × Value)) (sA sB : ℚ) (m : Value) : Prop :=
  m = .dict fs ∨ m = statusSet fs sA ∨ m = statusSet fs sB

/-- The marks the table can hold once at least one of the two updates has
written. -/
def wroteMark (fs : List (String × Value)) (sA sB : ℚ) (m : Value) : Prop :=
  m = statusSet fs sA ∨ m = statusSet fs sB

/-- Invariant on one caller's local state: it never fails, and any record it
has read is one of the reachable marks. -/
def callerInv (fs : List (String × Value)) (sA sB : ℚ) :
    CallerState → Prop
  | .start => True
  | .checked => True
  | .readMark m => goodMark fs sA sB m
  | .done => True
  | .failed _ => False

/-- Invariant on a whole configuration: the table holds an encoded reachable
mark — one already written by a caller as soon as either caller is done —
and both callers satisfy their local invariant. -/
def configInv (quote_id : String) (fs : List (String × Value)) (sA sB : ℚ)
    (c : TwoConfig) : Prop :=
  (∃ m, lookupA c.tbl quote_id = some (encode_to_bytes m) ∧
    goodMark fs sA sB m ∧
    ((c.a = .done ∨ c.b = .done) → wroteMark fs sA sB m)) ∧
  callerInv fs sA sB c.a ∧ callerInv fs sA sB c.b

/- Concrete inputs used by the counterexamples and witnesses below. -/

/-- A syntactically valid quote UUID. -/
def uuidA : String := "123e4567-e89b-12d3-a456-426614174000"

/-- A concrete order-mark payload: no `'quote'` key, no `'status'` key. -/
def markPayload : Value := .dict [("price", .num 1), ("expiration", .num 999)]

/-- A concrete payload that happens to contain a `'quote'` key. -/
def quotefulPayload : Value := .dict [("quote", .num 7)]

/-- A properly wrapped order-mark record, as other parts of the code expect
the table to hold: a `'status'` and a `'quote'` field. -/
def wrappedMark : Value := .dict [("status", .num 0), ("quote", .num 7)]

/-- A concrete encoded order book. -/
def bookBytes : Bytes := encode_to_bytes (.list [.num 1, .num 2])

/-- A store holding one order-book snapshot for (binance, BTC/USD, bid),
written at timestamp 5. -/
def storeWithBook : Store :=
  { emptyStore with strings :=
      [("BTC/USD_binance_bid_timestamp", .num 5),
        ("BTC/USD_binance_bid", .enc bookBytes)] }

/-- A store whose ORDER_MARKS table holds the bare payload under `uuidA`
(what `set_quote` actually writes). -/
def storeWithRawMark : Store :=
  { emptyStore with orderMarks := [(uuidA, encode_to_bytes markPayload)] }

/-- A store whose ORDER_MARKS table holds a properly wrapped record. -/
def storeWithWrappedMark : Store :=
  { emptyStore with orderMarks := [(uuidA, encode_to_bytes wrappedMark)] }

/-- A store with one unhedged position, under the upper-cased symbol. -/
def storeWithEth : Store := { emptyStore with unhedged := [("ETH/USD", 2)] }

/-- The fields of the wrapped record used in the concurrency witness. -/
def fieldsW : List (String × Value) := [("status", .num 0), ("quote", .num 7)]

/-- The one-record table the concurrency witness starts from. -/
def tableW : MarkTable := [(uuidA, encode_to_bytes (.dict fieldsW))]

/-- The alternating schedule A-read, B-read, A-write, B-write (both callers
interleave fully: the classic lost-update interleaving). -/
def scheduleW : List Bool := [true, false, true, false, true, false]

/-!  Theorems. -/

/-- C1.  The round trip fails on the code: `set_quote` builds the wrapped
record `data = {'status': ..., 'quote': order_mark}` but stores the bare
`order_mark` instead, so `get_quote`'s final `order_mark['quote']` raises
`KeyError` for a payload without a `'quote'` key, and returns only the
payload's own `'quote'` item — not a value deep-equal to the payload — for a
payload that has one. -/
theorem claim1_set_get_roundtrip_broken :
    get_quote (set_quote emptyStore uuidA markPayload 0) uuidA =
      (.error (.keyError "quote"), [.hget order_marks_key uuidA]) ∧
    get_quote (set_quote emptyStore uuidA quotefulPayload 0) uuidA =
      (.ok (.num 7), [.hget order_marks_key uuidA]) ∧
    Value.num 7 ≠ quotefulPayload :=
  ⟨rfl, rfl, nofun⟩

/-- C2.  The record `set_quote` writes is not the wrapped
`{'status': status, 'quote': order_mark}` record: the `hset` encodes the
bare `order_mark`, discarding the wrapper, so a payload without a
`'status'` key is stored without one even when a non-default status is
passed. -/
theorem claim2_stored_record_lacks_status :
    (set_quote emptyStore uuidA markPayload 5).orderMarks =
      [(uuidA, encode_to_bytes markPayload)] ∧
    pyIn "status" (decode_from_bytes (encode_to_bytes markPayload)) =
      .ok false :=
  ⟨rfl, rfl⟩

/-- C3.  `get_all_order_marks` never returns a mapping: the source stores
into and returns the never-defined name `quotes` (the accumulator is called
`marks`), and its freshness test calls `int(time)` on the imported `time`
function, so every call raises — `TypeError` on a non-empty table with
`only_valid` set, `NameError` otherwise. -/
theorem claim3_get_all_order_marks_always_raises :
    (∀ (st : Store) (b : Bool), exceptIsOk (get_all_order_marks st b) = false) ∧
    get_all_order_marks emptyStore false = .error (.nameError "quotes") ∧
    get_all_order_marks emptyStore true = .error (.nameError "quotes") ∧
    get_all_order_marks storeWithRawMark true =
      .error (.typeError
        "int argument must be a string or a number, not builtin function") ∧
    get_all_order_marks storeWithRawMark false = .error (.nameError "quotes") := by
  refine ⟨fun st b => ?_, rfl, rfl, rfl, rfl⟩
  cases h : st.orderMarks with
  | nil => cases b <;> simp [get_all_order_marks, order_marks_loop, h, exceptIsOk]
  | cons p rest =>
      cases b <;>
        simp [get_all_order_marks, order_marks_loop, h, exceptIsOk]

/-- C6.  The unhedged-position pair is broken on the code: the setter reads
the attribute `unhedged_positions_key`, which the class does not define
(the constant is `unhedged_position_key`), so every `set_unhedged_position`
call raises `AttributeError` and writes nothing — a subsequent get returns
`0.0`, not the size just set.  Separately, the getter checks existence under
the upper-cased symbol but fetches under the symbol as passed, so even on an
externally populated table a lower-cased query raises `TypeError` instead of
returning the stored size. -/
theorem claim6_unhedged_position_broken :
    set_unhedged_position emptyStore "ETH/USD" 1 =
      (.error (.attributeError
        "DealerCache object has no attribute unhedged_positions_key"),
        emptyStore) ∧
    get_unhedged_position emptyStore "eth/usd" = .ok 0 ∧
    get_unhedged_position storeWithEth "eth/usd" =
      .error (.typeError "float argument must not be None") ∧
    get_unhedged_position storeWithEth "ETH/USD" = .ok 2 :=
  ⟨rfl, rfl, rfl, rfl⟩

/-- C4.  Staleness in `get_order_book`: with the snapshot and its timestamp
`t` present, a positive `max_age` fails with `OutOfDateError` carrying the
overage `now - t - max_age` exactly when `now - t ≥ max_age`, succeeds with
the decoded book when `now - t < max_age`, and a `max_age` of `0` can never
produce a stale-data error, whatever the store holds. -/
theorem claim4_order_book_staleness
    (st : Store) (now : ℚ) (exchange symbol side : String) (max_age t : ℚ)
    (b : Bytes)
    (hsym : (pySplit '/' symbol).length = 2)
    (hts : lookupA st.strings (book_timestamp_key exchange symbol side) =
      some (.num t))
    (hbk : lookupA st.strings (book_base_key exchange symbol side) =
      some (.enc b)) :
    (0 < max_age → max_age ≤ now - t →
      get_order_book st now exchange symbol side max_age =
        (.error (.outOfDate (now - t - max_age)),
          [.get (book_timestamp_key exchange symbol side)])) ∧
    (0 < max_age → now - t < max_age →
      get_order_book st now exchange symbol side max_age =
        (.ok (decode_from_bytes b),
          [.get (book_timestamp_key exchange symbol side),
            .get (book_base_key exchange symbol side)])) ∧
    (∀ (st2 : Store) (n2 : ℚ) (e2 s2 d2 : String),
      isOutOfDateE (get_order_book st2 n2 e2 s2 d2 0).1 = false) := by
  rw [book_timestamp_key] at hts
  refine ⟨?_, ?_, ?_⟩
  · intro hpos hge
    simp only [get_order_book, hsym, ne_eq, not_true_eq_false, if_false,
      hts, pyFloatOpt]
    rw [if_pos ⟨hpos, hge⟩, book_timestamp_key]
  · intro hpos hlt
    simp only [get_order_book, hsym, ne_eq, not_true_eq_false, if_false,
      hts, pyFloatOpt, hbk]
    rw [if_neg (fun hc => absurd hc.2 (not_le.mpr hlt)), book_timestamp_key]
  · intro st2 n2 e2 s2 d2
    simp only [get_order_book]
    split
    · rfl
    · rcases hL : lookupA st2.strings (book_base_key e2 s2 d2 ++ "_timestamp")
        with _ | rv
      · simp [pyFloatOpt, hL, isOutOfDateE]
      · rcases rv with q | bb
        · simp only [pyFloatOpt, hL]
          rw [if_neg (fun hc => absurd hc.1 (lt_irrefl 0))]
          rcases hB : lookupA st2.strings (book_base_key e2 s2 d2)
            with _ | rb
          · simp [isOutOfDateE]
          · rcases rb with _ | _ <;> simp [isOutOfDateE]
        · simp [pyFloatOpt, hL, isOutOfDateE]

/-- C4 witness: on a snapshot written at timestamp 5, `max_age = 5` is stale
at `now = 10` (overage 0) and fresh at `now = 9.95`. -/
theorem claim4_order_book_staleness_witness :
    (pySplit '/' "btc/usd").length = 2 ∧
    lookupA storeWithBook.strings
        (book_timestamp_key "Binance" "btc/usd" "BID") = some (.num 5) ∧
    lookupA storeWithBook.strings (book_base_key "Binance" "btc/usd" "BID") =
      some (.enc bookBytes) ∧
    get_order_book storeWithBook 10 "Binance" "btc/usd" "BID" 5 =
      (.error (.outOfDate (10 - 5 - 5)),
        [.get (book_timestamp_key "Binance" "btc/usd" "BID")]) ∧
    get_order_book storeWithBook (199/20) "Binance" "btc/usd" "BID" 5 =
      (.ok (decode_from_bytes bookBytes),
        [.get (book_timestamp_key "Binance" "btc/usd" "BID"),
          .get (book_base_key "Binance" "btc/usd" "BID")]) := by
  have h1 := claim4_order_book_staleness storeWithBook 10 "Binance" "btc/usd"
    "BID" 5 5 bookBytes rfl rfl rfl
  have h2 := claim4_order_book_staleness storeWithBook (199/20) "Binance"
    "btc/usd" "BID" 5 5 bookBytes rfl rfl rfl
  exact ⟨rfl, rfl, rfl, h1.1 (by norm_num) (by norm_num),
    h2.2.1 (by norm_num) (by norm_num)⟩

/-- C5 counterexample: with no snapshot ever written, `get_order_book` does
not fail with a not-found error — `float(None)` on the absent timestamp
raises a bare `TypeError`. -/
theorem claim5_missing_timestamp_counterexample :
    get_order_book emptyStore 100 "binance" "BTC/USD" "bid" 20 =
      (.error (.typeError "float argument must not be None"),
        [.get "BTC/USD_binance_bid_timestamp"]) ∧
    isNotFoundE (get_order_book emptyStore 100 "binance" "BTC/USD" "bid" 20).1 =
      false :=
  ⟨rfl, rfl⟩

/-- C5 amended: for every well-formed triple whose timestamp key is absent,
`get_order_book` fails with the `TypeError` arising from `float(None)`,
not with a not-found error. -/
theorem claim5_missing_timestamp_type_error
    (st : Store) (now : ℚ) (exchange symbol side : String) (max_age : ℚ)
    (hsym : (pySplit '/' symbol).length = 2)
    (hts : lookupA st.strings (book_timestamp_key exchange symbol side) =
      none) :
    get_order_book st now exchange symbol side max_age =
      (.error (.typeError "float argument must not be None"),
        [.get (book_timestamp_key exchange symbol side)]) := by
  rw [book_timestamp_key] at hts
  simp only [get_order_book, hsym, ne_eq, not_true_eq_false, if_false,
    hts, pyFloatOpt]
  rw [book_timestamp_key]

/-- C5 amended witness: the empty store at a concrete well-formed triple. -/
theorem claim5_missing_timestamp_type_error_witness :
    (pySplit '/' "ETH/USD").length = 2 ∧
    lookupA emptyStore.strings (book_timestamp_key "kraken" "ETH/USD" "ask") =
      none ∧
    get_order_book emptyStore 7 "kraken" "ETH/USD" "ask" 20 =
      (.error (.typeError "float argument must not be None"),
        [.get (book_timestamp_key "kraken" "ETH/USD" "ask")]) :=
  ⟨rfl, rfl,
    claim5_missing_timestamp_type_error emptyStore 7 "kraken" "ETH/USD" "ask"
      20 rfl rfl⟩

/-- C7 counterexample: `update_quote_status` performs no identifier
validation — on a malformed id it contacts the store (the `hexists`
request) and fails with a not-found error, not an invalid-input error. -/
theorem claim7_update_skips_validation_counterexample :
    is_valid_uuid "not-a-uuid" = false ∧
    update_quote_status emptyStore "not-a-uuid" 1 =
      (.error (.notFound "quote with specified ID not found"), emptyStore,
        [.hexists order_marks_key "not-a-uuid"]) :=
  ⟨rfl, rfl⟩

/-- C7 amended: only `get_quote` rejects a malformed quote id before any
store access; `update_quote_status` always issues its store existence check
first, whatever the id looks like. -/
theorem claim7_validation_only_in_get_quote
    (st : Store) (quote_id : String) (new_status : ℚ)
    (hbad : is_valid_uuid quote_id = false) :
    get_quote st quote_id =
      (.error (.dealerCacheError "invalid quote ID"), []) ∧
    (update_quote_status st quote_id new_status).2.2.head? =
      some (.hexists order_marks_key quote_id) := by
  constructor
  · simp [get_quote, hbad]
  · rcases h : lookupA st.orderMarks quote_id with _ | raw
    · simp [update_quote_status, h]
    · simp only [update_quote_status, h]
      rcases hin : pyIn "status" (decode_from_bytes raw) with e | bb
      · simp
      · cases bb
        · simp
        · rcases hset : setItem (decode_from_bytes raw) "status"
            (.num new_status) with e2 | m2 <;> simp [hset]

/-- C7 amended witness: the malformed id `"not-a-uuid"` against the empty
store. -/
theorem claim7_validation_only_in_get_quote_witness :
    is_valid_uuid "not-a-uuid" = false ∧
    (get_quote emptyStore "not-a-uuid" =
      (.error (.dealerCacheError "invalid quote ID"), []) ∧
    (update_quote_status emptyStore "not-a-uuid" 1).2.2.head? =
      some (.hexists order_marks_key "not-a-uuid")) :=
  ⟨rfl, claim7_validation_only_in_get_quote emptyStore "not-a-uuid" 1 rfl⟩

/-- C8.  `get_quote` on a valid id with no record fails with
`NotFoundError`; `update_quote_status` on an absent id fails with
`NotFoundError`, returns the store unchanged and issues no write; and
`update_quote_status` on a stored record decoding to a mapping with no
`'status'` field fails with the distinct `DealerCacheError`, again without
writing. -/
theorem claim8_not_found_and_corruption_errors :
    (∀ (st : Store) (quote_id : String), is_valid_uuid quote_id = true →
      lookupA st.orderMarks quote_id = none →
      get_quote st quote_id =
        (.error (.notFound "quote not found"),
          [.hget order_marks_key quote_id])) ∧
    (∀ (st : Store) (quote_id : String) (s : ℚ),
      lookupA st.orderMarks quote_id = none →
      update_quote_status st quote_id s =
        (.error (.notFound "quote with specified ID not found"), st,
          [.hexists order_marks_key quote_id])) ∧
    (∀ (st : Store) (quote_id : String) (s : ℚ)
      (fs : List (String × Value)),
      lookupA st.orderMarks quote_id = some (encode_to_bytes (.dict fs)) →
      hasKeyA fs "status" = false →
      update_quote_status st quote_id s =
        (.error (.dealerCacheError "malformed order mark; no known status"),
          st,
          [.hexists order_marks_key quote_id,
            .hget order_marks_key quote_id])) := by
  refine ⟨fun st qid hok habs => ?_, fun st qid s habs => ?_,
    fun st qid s fs hrec hnost => ?_⟩
  · simp [get_quote, hok, habs]
  · simp [update_quote_status, habs]
  · simp [update_quote_status, hrec, decode_from_bytes, encode_to_bytes,
      pyIn, hnost]

/-- C8 witness: the three facts at concrete inputs — `uuidA` never written,
and `uuidA` holding a record with no `'status'` field. -/
theorem claim8_not_found_and_corruption_errors_witness :
    is_valid_uuid uuidA = true ∧
    lookupA emptyStore.orderMarks uuidA = none ∧
    get_quote emptyStore uuidA =
      (.error (.notFound "quote not found"), [.hget order_marks_key uuidA]) ∧
    update_quote_status emptyStore uuidA 1 =
      (.error (.notFound "quote with specified ID not found"), emptyStore,
        [.hexists order_marks_key uuidA]) ∧
    lookupA storeWithRawMark.orderMarks uuidA =
      some (encode_to_bytes
        (.dict [("price", .num 1), ("expiration", .num 999)])) ∧
    update_quote_status storeWithRawMark uuidA 1 =
      (.error (.dealerCacheError "malformed order mark; no known status"),
        storeWithRawMark,
        [.hexists order_marks_key uuidA, .hget order_marks_key uuidA]) :=
  ⟨rfl, rfl,
    claim8_not_found_and_corruption_errors.1 emptyStore uuidA rfl rfl,
    claim8_not_found_and_corruption_errors.2.1 emptyStore uuidA 1 rfl,
    rfl,
    claim8_not_found_and_corruption_errors.2.2 storeWithRawMark uuidA 1
      [("price", .num 1), ("expiration", .num 999)] rfl rfl⟩

/-- C9 counterexample: `"BTC/"` has an empty quote-ticker component, yet it
passes the validation (the source only counts the split's pieces), so the
call reaches the store — the trace shows the timestamp fetch — instead of
failing with an invalid-input error beforehand. -/
theorem claim9_empty_component_counterexample :
    pySplit '/' "BTC/" = ["BTC", ""] ∧
    get_order_book emptyStore 0 "ex" "BTC/" "bid" 20 =
      (.error (.typeError "float argument must not be None"),
        [.get "BTC/_ex_bid_timestamp"]) ∧
    isValueErrorE (get_order_book emptyStore 0 "ex" "BTC/" "bid" 20).1 =
      false :=
  ⟨rfl, rfl, rfl⟩

/-- C9 amended: the validation only counts the separator-split components —
a symbol that does not split into exactly two pieces (no separator, or more
than one) fails with the invalid-input `ValueError` before any store
access, while empty components pass. -/
theorem claim9_component_count_check
    (st : Store) (now : ℚ) (exchange symbol side : String) (max_age : ℚ)
    (hsym : (pySplit '/' symbol).length ≠ 2) :
    get_order_book st now exchange symbol side max_age =
      (.error (.valueError "symbol must be BASE_TICKER/QUOTE_TICKER format"),
        []) := by
  simp [get_order_book, hsym]

/-- Looking up the key just set yields the value just set. -/
theorem lookupA_setKeyA_self {α : Type} (l : List (String × α)) (k : String)
    (v : α) : lookupA (setKeyA l k v) k = some v := by
  induction l with
  | nil => simp [setKeyA, lookupA]
  | cons p rest ih =>
      obtain ⟨a, w⟩ := p
      by_cases h : a = k <;> simp [setKeyA, lookupA, h, ih]

/-- The key just set is present. -/
theorem hasKeyA_setKeyA_self {α : Type} (l : List (String × α)) (k : String)
    (v : α) : hasKeyA (setKeyA l k v) k = true := by
  induction l with
  | nil => simp [setKeyA, hasKeyA]
  | cons p rest ih =>
      obtain ⟨a, w⟩ := p
      by_cases h : a = k <;> simp [setKeyA, hasKeyA, h, ih]

/-- Setting the same key twice keeps only the second write. -/
theorem setKeyA_setKeyA {α : Type} (l : List (String × α)) (k : String)
    (x y : α) : setKeyA (setKeyA l k x) k y = setKeyA l k y := by
  induction l with
  | nil => simp [setKeyA]
  | cons p rest ih =>
      obtain ⟨a, w⟩ := p
      by_cases h : a = k <;> simp [setKeyA, h, ih]

/-- A key that looks up successfully is present. -/
theorem hasKeyA_of_lookupA {α : Type} (l : List (String × α)) (k : String)
    (v : α) (h : lookupA l k = some v) : hasKeyA l k = true := by
  induction l with
  | nil => simp [lookupA] at h
  | cons p rest ih =>
      obtain ⟨a, w⟩ := p
      by_cases hk : a = k
      · simp [hasKeyA, hk]
      · simp only [lookupA, hk, if_false] at h
        simp [hasKeyA, hk, ih h]

/-- A record that is a reachable mark keeps its `'status'` field. -/
theorem goodMark_hasStatus (fs : List (String × Value)) (sA sB : ℚ)
    (g : List (String × Value)) (hst : hasKeyA fs "status" = true)
    (hg : goodMark fs sA sB (.dict g)) : hasKeyA g "status" = true := by
  unfold goodMark statusSet at hg
  rcases hg with h | h | h <;> injection h with h2 <;> subst h2 <;>
    first
      | exact hst
      | exact hasKeyA_setKeyA_self fs "status" _

/-- Setting the status of a reachable mark yields the initial record with
only its status replaced. -/
theorem goodMark_statusSet (fs : List (String × Value)) (sA sB : ℚ)
    (g : List (String × Value)) (s : ℚ)
    (hg : goodMark fs sA sB (.dict g)) :
    Value.dict (setKeyA g "status" (.num s)) = statusSet fs s := by
  unfold goodMark statusSet at hg
  rcases hg with h | h | h <;> injection h with h2 <;> subst h2 <;>
    first
      | rfl
      | simp [statusSet, setKeyA_setKeyA]

/-- Key membership is successful lookup. -/
theorem hasKeyA_eq_isSome {α : Type} (l : List (String × α)) (k : String) :
    hasKeyA l k = (lookupA l k).isSome := by
  induction l with
  | nil => simp [hasKeyA, lookupA]
  | cons p rest ih =>
      obtain ⟨a, w⟩ := p
      by_cases h : a = k <;> simp [hasKeyA, lookupA, h, ih]

/-- The three-step caller model agrees with `update_quote_status`: run
sequentially from `start`, the three atomic steps leave the ORDER_MARKS
table exactly as the monolithic function does, and reach `done` exactly
when the function succeeds. -/
theorem stepCaller_refines_update (st : Store) (quote_id : String) (s : ℚ) :
    (stepCaller quote_id s
        (stepCaller quote_id s
          (stepCaller quote_id s .start st.orderMarks).1
          (stepCaller quote_id s .start st.orderMarks).2).1
        (stepCaller quote_id s
          (stepCaller quote_id s .start st.orderMarks).1
          (stepCaller quote_id s .start st.orderMarks).2).2).2 =
      (update_quote_status st quote_id s).2.1.orderMarks ∧
    ((stepCaller quote_id s
        (stepCaller quote_id s
          (stepCaller quote_id s .start st.orderMarks).1
          (stepCaller quote_id s .start st.orderMarks).2).1
        (stepCaller quote_id s
          (stepCaller quote_id s .start st.orderMarks).1
          (stepCaller quote_id s .start st.orderMarks).2).2).1 = .done ↔
      exceptIsOk (update_quote_status st quote_id s).1 = true) := by
  rcases h : lookupA st.orderMarks quote_id with _ | raw
  · have hk : hasKeyA st.orderMarks quote_id = false := by
      rw [hasKeyA_eq_isSome, h]; rfl
    simp [stepCaller, update_quote_status, h, hk, exceptIsOk]
  · have hk : hasKeyA st.orderMarks quote_id = true := by
      rw [hasKeyA_eq_isSome, h]; rfl
    rcases hin : pyIn "status" (decode_from_bytes raw) with e | bb
    · simp [stepCaller, update_quote_status, h, hk, hin, exceptIsOk]
    · cases bb
      · simp [stepCaller, update_quote_status, h, hk, hin, exceptIsOk]
      · rcases hs : setItem (decode_from_bytes raw) "status" (.num s)
          with e2 | m2 <;>
          simp [stepCaller, update_quote_status, h, hk, hin, hs, exceptIsOk]

/-- One scheduled step preserves the two-caller invariant. -/
theorem stepTwo_preserves (quote_id : String) (fs : List (String × Value))
    (sA sB : ℚ) (hst : hasKeyA fs "status" = true) (c : TwoConfig) (s : Bool)
    (hinv : configInv quote_id fs sA sB c) :
    configInv quote_id fs sA sB (stepTwo quote_id sA sB c s) := by
  obtain ⟨⟨m, hm, hgood, hdone⟩, hA, hB⟩ := hinv
  cases s
  case false =>
    cases hb : c.b with
    | start =>
        have hk := hasKeyA_of_lookupA c.tbl quote_id (encode_to_bytes m) hm
        refine ⟨⟨m, ?_, hgood, ?_⟩, ?_, ?_⟩ <;>
          simp_all [stepTwo, stepCaller, callerInv]
    | checked =>
        refine ⟨⟨m, ?_, hgood, ?_⟩, ?_, ?_⟩ <;>
          simp_all [stepTwo, stepCaller, callerInv, decode_from_bytes,
            encode_to_bytes]
    | readMark m2 =>
        rw [hb] at hB
        have hdict : ∃ g, m2 = Value.dict g := by
          rcases hB with h | h | h <;> exact ⟨_, h⟩
        obtain ⟨g, rfl⟩ := hdict
        have hgs := goodMark_hasStatus fs sA sB g hst hB
        have hset := goodMark_statusSet fs sA sB g sB hB
        refine ⟨⟨statusSet fs sB, ?_, Or.inr (Or.inr rfl),
            fun _ => Or.inr rfl⟩, ?_, ?_⟩ <;>
          simp_all [stepTwo, stepCaller, callerInv, pyIn, setItem,
            lookupA_setKeyA_self]
    | done =>
        refine ⟨⟨m, ?_, hgood, ?_⟩, ?_, ?_⟩ <;>
          simp_all [stepTwo, stepCaller, callerInv]
    | failed e => rw [hb] at hB; exact absurd hB (by simp [callerInv])
  case true =>
    cases ha : c.a with
    | start =>
        have hk := hasKeyA_of_lookupA c.tbl quote_id (encode_to_bytes m) hm
        refine ⟨⟨m, ?_, hgood, ?_⟩, ?_, ?_⟩ <;>
          simp_all [stepTwo, stepCaller, callerInv]
    | checked =>
        refine ⟨⟨m, ?_, hgood, ?_⟩, ?_, ?_⟩ <;>
          simp_all [stepTwo, stepCaller, callerInv, decode_from_bytes,
            encode_to_bytes]
    | readMark m2 =>
        rw [ha] at hA
        have hdict : ∃ g, m2 = Value.dict g := by
          rcases hA with h | h | h <;> exact ⟨_, h⟩
        obtain ⟨g, rfl⟩ := hdict
        have hgs := goodMark_hasStatus fs sA sB g hst hA
        have hset := goodMark_statusSet fs sA sB g sA hA
        refine ⟨⟨statusSet fs sA, ?_, Or.inr (Or.inl rfl),
            fun _ => Or.inl rfl⟩, ?_, ?_⟩ <;>
          simp_all [stepTwo, stepCaller, callerInv, pyIn, setItem,
            lookupA_setKeyA_self]
    | done =>
        refine ⟨⟨m, ?_, hgood, ?_⟩, ?_, ?_⟩ <;>
          simp_all [stepTwo, stepCaller, callerInv]
    | failed e => rw [ha] at hA; exact absurd hA (by simp [callerInv])

/-- A whole schedule preserves the two-caller invariant. -/
theorem runTwo_preserves (quote_id : String) (fs : List (String × Value))
    (sA sB : ℚ) (hst : hasKeyA fs "status" = true) (sched : List Bool)
    (c : TwoConfig) (hinv : configInv quote_id fs sA sB c) :
    configInv quote_id fs sA sB (runTwo quote_id sA sB c sched) := by
  induction sched generalizing c with
  | nil => exact hinv
  | cons s rest ih =>
      exact ih _ (stepTwo_preserves quote_id fs sA sB hst c s hinv)

/-- C9 amended witness: `"BTCUSD"` (no separator) is rejected with no store
access. -/
theorem claim9_component_count_check_witness :
    (pySplit '/' "BTCUSD").length ≠ 2 ∧
    get_order_book emptyStore 0 "ex" "BTCUSD" "bid" 20 =
      (.error (.valueError "symbol must be BASE_TICKER/QUOTE_TICKER format"),
        []) :=
  ⟨by decide,
    claim9_component_count_check emptyStore 0 "ex" "BTCUSD" "bid" 20
      (by decide)⟩

/-- C10.  Two `update_quote_status` calls on the same quote id with
different target statuses, interleaved arbitrarily at the granularity of
atomic store requests over a well-formed initial record: whenever both calls
complete, the stored record is the initial record with its `'status'` field
set to one of the two target statuses — one of the two writes, never a
corrupted or partial value. -/
theorem claim10_concurrent_status_updates
    (quote_id : String) (fs : List (String × Value)) (sA sB : ℚ)
    (tbl0 : MarkTable) (sched : List Bool)
    (hdiff : sA ≠ sB)
    (hst : hasKeyA fs "status" = true)
    (h0 : lookupA tbl0 quote_id = some (encode_to_bytes (.dict fs))) :
    (runTwo quote_id sA sB ⟨tbl0, .start, .start⟩ sched).a = .done →
    (runTwo quote_id sA sB ⟨tbl0, .start, .start⟩ sched).b = .done →
    (lookupA (runTwo quote_id sA sB ⟨tbl0, .start, .start⟩ sched).tbl
        quote_id = some (encode_to_bytes (statusSet fs sA)) ∨
      lookupA (runTwo quote_id sA sB ⟨tbl0, .start, .start⟩ sched).tbl
        quote_id = some (encode_to_bytes (statusSet fs sB))) := by
  intro hA hB
  have hinv0 : configInv quote_id fs sA sB ⟨tbl0, .start, .start⟩ := by
    refine ⟨⟨.dict fs, h0, Or.inl rfl, fun h => ?_⟩, trivial, trivial⟩
    rcases h with h | h <;> exact CallerState.noConfusion h
  have hinv := runTwo_preserves quote_id fs sA sB hst sched _ hinv0
  obtain ⟨⟨m, hm, hgood, hdone⟩, _, _⟩ := hinv
  rcases hdone (Or.inl hA) with h | h
  · exact Or.inl (by rw [hm, h])
  · exact Or.inr (by rw [hm, h])

/-- C10 witness: the fully interleaved schedule (A and B both read before
either writes — the classic lost-update interleaving) over a concrete
wrapped record, with target statuses 1 and 2: both callers finish and the
final record is the initial one with status 1 or 2. -/
theorem claim10_concurrent_status_updates_witness :
    (1 : ℚ) ≠ 2 ∧
    hasKeyA fieldsW "status" = true ∧
    lookupA tableW uuidA = some (encode_to_bytes (.dict fieldsW)) ∧
    (runTwo uuidA 1 2 ⟨tableW, .start, .start⟩ scheduleW).a = .done ∧
    (runTwo uuidA 1 2 ⟨tableW, .start, .start⟩ scheduleW).b = .done ∧
    (lookupA (runTwo uuidA 1 2 ⟨tableW, .start, .start⟩ scheduleW).tbl
        uuidA = some (encode_to_bytes (statusSet fieldsW 1)) ∨
      lookupA (runTwo uuidA 1 2 ⟨tableW, .start, .start⟩ scheduleW).tbl
        uuidA = some (encode_to_bytes (statusSet fieldsW 2))) :=
  ⟨by norm_num, rfl, rfl, rfl, rfl,
    claim10_concurrent_status_updates uuidA fieldsW 1 2 tableW scheduleW
      (by norm_num) rfl rfl rfl rfl⟩

end Zaidan
